import Mathlib

/-!
Verification development for the FM2 backend (`src/backend/server.js`):
an Express service with three roles (student / teacher / parent, called
submitter / reviewer / guardian in the specification), JWT-based
authentication, a role-scoped homework listing, homework submission and a
parent-to-student binding flow backed by a Supabase record store.

The handlers below are shallow embeddings of the route handlers in
`server.js`.  External collaborators (bcrypt, jsonwebtoken, the Supabase
client) are modelled by their contracts; the handler logic itself is a
direct translation of the JavaScript.
-/

namespace FM2

/-- Error object returned by the Supabase adapter: a PostgREST error code
(e.g. `"23505"` for a unique-constraint violation) and a message. -/
structure StoreErr where
  code : String
  message : String
deriving DecidableEq

/-- Result shape of a Supabase `maybeSingle()` call, destructured in the
source as `{ data, error }`. -/
structure QueryRes (α : Type) where
  data : Option α
  error : Option StoreErr
deriving DecidableEq

/-- Supabase `maybeSingle()` semantics: no row gives `data = none`; exactly
one row gives that row; more than one row is an adapter error (the `data`
field is then absent). -/
def maybeSingle {α : Type} (rows : List α) : QueryRes α :=
  match rows with
  | [] => ⟨none, none⟩
  | [x] => ⟨some x, none⟩
  | _ => ⟨none, some ⟨"PGRST116", "JSON object requested, multiple (or no) rows returned"⟩⟩

/-- An HTTP error response `res.status(n).json({ error: msg })`. -/
structure ErrResp where
  status : Nat
  error : String
deriving DecidableEq

/-- Claim set signed into a session token (`server.js` lines 92-96 and
133-137): `{ userId, username, role }`. -/
structure JwtPayload where
  userId : Nat
  username : String
  role : String
deriving DecidableEq

/-- Modelled from the spec: the session token codec (the external
`jsonwebtoken` library).  A token is an opaque signed value carrying the
claim payload, the signing key used, and the expiry instant. -/
structure SignedToken where
  payload : JwtPayload
  key : String
  exp : Nat
deriving DecidableEq

/-- Modelled from the spec: `jwt.sign(claims, secret, { expiresIn: ttl })`
produces a token whose expiry is `now + ttl`. -/
def jwtSign (payload : JwtPayload) (secret : String) (now ttl : Nat) : SignedToken :=
  ⟨payload, secret, now + ttl⟩

/-- Modelled from the spec: `jwt.verify(token, secret)` succeeds exactly
when the token was signed with `secret` and has not expired. -/
def jwtVerify (t : SignedToken) (secret : String) (now : Nat) : Option JwtPayload :=
  if t.key = secret ∧ now < t.exp then some t.payload else none

/-- `server.js` line 22: `process.env.JWT_SECRET || 'default-secret-key'`. -/
def JWT_SECRET (env : Option String) : String :=
  env.getD "default-secret-key"

/-- `server.js` line 23: `JWT_EXPIRES_IN = '7d'`, in seconds. -/
def JWT_EXPIRES_IN : Nat := 7 * 24 * 60 * 60

/-- Modelled from the spec: bcrypt (external black-box one-way hash).  The
concrete model tags the password with a digest marker; `bcryptCompare`
verifies a password against a digest. -/
def bcryptHash (password : String) : String :=
  "bcrypt-2b-10-" ++ password

/-- Modelled from the spec: `bcrypt.compare(password, digest)`. -/
def bcryptCompare (password digest : String) : Bool :=
  digest == bcryptHash password

/-- Auth-gate middleware `authenticateToken` (`server.js` lines 27-44):
missing credential gives 401, a token the codec rejects gives 403,
otherwise the decoded payload becomes `req.user`. -/
def authenticateToken (env : Option String) (authToken : Option SignedToken) (now : Nat) :
    Except ErrResp JwtPayload :=
  match authToken with
  | none => .error ⟨401, "請先登入"⟩
  | some t =>
    match jwtVerify t (JWT_SECRET env) now with
    | none => .error ⟨403, "Token 無效或過期，請重新登入"⟩
    | some user => .ok user

/-- Row of the `users` table. -/
structure UserRow where
  id : Nat
  username : String
  email : String
  password_hash : String
  role : String
  is_verified : Bool
deriving DecidableEq

/-- Row of the `homeworks` table (fields the handler inserts, plus the
database-assigned creation timestamp used for ordering). -/
structure HomeworkRow where
  student_id : Nat
  student_name : String
  title : String
  content : String
  status : String
  created_at : Nat
deriving DecidableEq

/-- Row of the `parent_child` table. -/
structure RelRow where
  parent_id : Nat
  child_id : Nat
deriving DecidableEq

/-- The record store backing the service: the three tables plus an id
counter for newly inserted users. -/
structure Store where
  users : List UserRow
  homeworks : List HomeworkRow
  parent_child : List RelRow
  nextId : Nat
deriving DecidableEq

def emptyStore : Store := ⟨[], [], [], 1⟩

/-- The register duplicate-check query (`server.js` lines 63-67):
`.or(username.eq.U,email.eq.E)`. -/
def findUsersByUsernameOrEmail (s : Store) (u e : String) : List UserRow :=
  s.users.filter (fun r => r.username == u || r.email == e)

/-- The login lookup query (`server.js` lines 116-120):
`.or(username.eq.X,email.eq.X)` for a single identifier `X`. -/
def findUsersByIdentifier (s : Store) (x : String) : List UserRow :=
  s.users.filter (fun r => r.username == x || r.email == x)

/-- Honest `users` insert: the database enforces the unique constraints on
`username` and `email`, reporting code 23505 on violation. -/
def insertUser (s : Store) (row : UserRow) : Option StoreErr × Store :=
  if s.users.any (fun r => r.username == row.username || r.email == row.email) then
    (some ⟨"23505", "duplicate key value violates unique constraint"⟩, s)
  else
    (none, ⟨s.users ++ [row], s.homeworks, s.parent_child, s.nextId + 1⟩)

/-- Honest `parent_child` insert: the pair is unique, code 23505 on a
duplicate (`server.js` comment at line 279). -/
def insertRelation (s : Store) (p c : Nat) : Option StoreErr × Store :=
  if s.parent_child.any (fun r => r.parent_id == p && r.child_id == c) then
    (some ⟨"23505", "duplicate key value violates unique constraint"⟩, s)
  else
    (none, ⟨s.users, s.homeworks, s.parent_child ++ [⟨p, c⟩], s.nextId⟩)

/-- Request body of `POST /api/register`.  Absent and empty JavaScript
fields are both falsy, so a missing field is modelled as `""`. -/
structure RegisterInput where
  username : String
  email : String
  password : String
  role : String
deriving DecidableEq

/-- Public identity view `{ id, username, role }` returned on success. -/
structure PublicUser where
  id : Nat
  username : String
  role : String
deriving DecidableEq

/-- Success payload of register and login: message, token, public user. -/
structure AuthSuccess where
  message : String
  token : SignedToken
  user : PublicUser
deriving DecidableEq

/-- Registration logic over explicit adapter responses (`server.js` lines
54-108).  Mirrors the source exactly: the duplicate-check result is
destructured as `{ data: existingUser }`, so its `error` field is ignored;
an insert error is thrown and caught as a generic 500. -/
def registerLogic (env : Option String) (inp : RegisterInput)
    (dupCheck : QueryRes UserRow) (insertRes : QueryRes UserRow) (now : Nat) :
    Except ErrResp AuthSuccess :=
  if inp.username == "" || inp.email == "" || inp.password == "" then
    .error ⟨400, "請填寫完整資料"⟩
  else
    match dupCheck.data with
    | some _ => .error ⟨409, "帳號或 Email 已被註冊"⟩
    | none =>
      match insertRes.error with
      | some _ => .error ⟨500, "伺服器錯誤"⟩
      | none =>
        match insertRes.data with
        | none => .error ⟨500, "伺服器錯誤"⟩
        | some newUser =>
          let token := jwtSign ⟨newUser.id, newUser.username, newUser.role⟩
            (JWT_SECRET env) now JWT_EXPIRES_IN
          .ok ⟨"註冊成功", token, ⟨newUser.id, newUser.username, newUser.role⟩⟩

/-- The row `POST /api/register` inserts (`server.js` lines 77-87):
`role || 'student'`, `is_verified: true`. -/
def newUserRow (s : Store) (inp : RegisterInput) : UserRow :=
  ⟨s.nextId, inp.username, inp.email, bcryptHash inp.password,
    if inp.role == "" then "student" else inp.role, true⟩

/-- `POST /api/register` composed with the honest store adapter; returns
the response and the store state after the call. -/
def registerHandler (env : Option String) (s : Store) (inp : RegisterInput) (now : Nat) :
    Except ErrResp AuthSuccess × Store :=
  if inp.username == "" || inp.email == "" || inp.password == "" then
    (.error ⟨400, "請填寫完整資料"⟩, s)
  else
    match (maybeSingle (findUsersByUsernameOrEmail s inp.username inp.email)).data with
    | some _ => (.error ⟨409, "帳號或 Email 已被註冊"⟩, s)
    | none =>
      match insertUser s (newUserRow s inp) with
      | (some _, s2) => (.error ⟨500, "伺服器錯誤"⟩, s2)
      | (none, s2) =>
        let token := jwtSign ⟨(newUserRow s inp).id, (newUserRow s inp).username,
          (newUserRow s inp).role⟩ (JWT_SECRET env) now JWT_EXPIRES_IN
        (.ok ⟨"註冊成功", token,
          ⟨(newUserRow s inp).id, (newUserRow s inp).username, (newUserRow s inp).role⟩⟩, s2)

/-- `POST /api/login` (`server.js` lines 111-149): a store error from the
lookup is a 500; a missing user or a failed password comparison are
answered by one and the same 401 response. -/
def loginHandler (env : Option String) (s : Store) (username password : String) (now : Nat) :
    Except ErrResp AuthSuccess :=
  let q := maybeSingle (findUsersByIdentifier s username)
  match q.error with
  | some _ => .error ⟨500, "資料庫錯誤"⟩
  | none =>
    match q.data with
    | none => .error ⟨401, "帳號或密碼錯誤"⟩
    | some user =>
      if bcryptCompare password user.password_hash then
        .ok ⟨"登入成功",
          jwtSign ⟨user.id, user.username, user.role⟩ (JWT_SECRET env) now JWT_EXPIRES_IN,
          ⟨user.id, user.username, user.role⟩⟩
      else
        .error ⟨401, "帳號或密碼錯誤"⟩

/-- Request body of `POST /api/homework`.  The handler destructures only
`title` and `content`; the extra owner fields model a client trying to
supply its own identity in the body, which the source never reads. -/
structure HomeworkBody where
  title : String
  content : String
  student_id : Nat
  student_name : String
deriving DecidableEq

/-- Submission logic over an explicit insert outcome (`server.js` lines
154-185).  On an insert error the catch block answers
`'提交失敗: ' + error.message`. -/
def postHomeworkLogic (user : JwtPayload) (body : HomeworkBody)
    (insertErr : Option StoreErr) : Except ErrResp String :=
  if user.role != "student" then
    .error ⟨403, "只有學生可以提交功課"⟩
  else if body.title == "" || body.content == "" then
    .error ⟨400, "標題與內容不能為空"⟩
  else
    match insertErr with
    | some e => .error ⟨500, "提交失敗: " ++ e.message⟩
    | none => .ok "功課提交成功！"

/-- `POST /api/homework` composed with the honest store adapter: on success
the inserted row takes `student_id` and `student_name` from the token
payload and `status: 'pending'`; `created` is the database-assigned
creation timestamp. -/
def postHomeworkHandler (s : Store) (user : JwtPayload) (body : HomeworkBody) (created : Nat) :
    Except ErrResp String × Store :=
  if user.role != "student" then
    (.error ⟨403, "只有學生可以提交功課"⟩, s)
  else if body.title == "" || body.content == "" then
    (.error ⟨400, "標題與內容不能為空"⟩, s)
  else
    (.ok "功課提交成功！",
      ⟨s.users,
        s.homeworks ++ [⟨user.userId, user.username, body.title, body.content, "pending", created⟩],
        s.parent_child, s.nextId⟩)

/-- Ordering relation of `.order('created_at', { ascending: false })`:
row `a` may precede row `b` when `b` was created no later than `a`. -/
def createdDesc (a b : HomeworkRow) : Prop :=
  b.created_at ≤ a.created_at

instance : DecidableRel createdDesc := fun a b => Nat.decLe b.created_at a.created_at

instance : IsTotal HomeworkRow createdDesc :=
  ⟨fun a b => Nat.le_total b.created_at a.created_at⟩

instance : IsTrans HomeworkRow createdDesc :=
  ⟨fun _ _ _ hab hbc => Nat.le_trans hbc hab⟩

/-- The `homeworks` select with a row predicate, ordered by creation time
descending. -/
def listWhere (s : Store) (pred : HomeworkRow → Bool) : List HomeworkRow :=
  List.insertionSort createdDesc (s.homeworks.filter pred)

instance {α β : Type} [DecidableEq α] [DecidableEq β] : DecidableEq (Except α β) := fun a b =>
  match a, b with
  | .error x, .error y => decidable_of_iff (x = y) (by simp)
  | .ok x, .ok y => decidable_of_iff (x = y) (by simp)
  | .error _, .ok _ => isFalse (by simp)
  | .ok _, .error _ => isFalse (by simp)

/-- Outcome of `GET /api/homework`: the response, plus whether the
`homeworks` query was executed (the parent branch with no bound children
returns early, before `await query`). -/
structure ListOutcome where
  response : Except ErrResp (List HomeworkRow)
  queriedHomeworks : Bool
deriving DecidableEq

/-- Children bound to a parent in the `parent_child` table
(`server.js` lines 210-213). -/
def relationsOf (s : Store) (parentId : Nat) : List RelRow :=
  s.parent_child.filter (fun r => r.parent_id == parentId)

/-- `GET /api/homework` (`server.js` lines 188-239).  The role branch is an
if / else-if chain with no final else: a role that is none of `student`,
`teacher`, `parent` leaves the query unfiltered, exactly like the teacher
branch. -/
def getHomeworkHandler (s : Store) (user : JwtPayload) : ListOutcome :=
  if user.role == "student" then
    ⟨.ok (listWhere s (fun h => h.student_id == user.userId)), true⟩
  else if user.role == "teacher" then
    ⟨.ok (listWhere s (fun _ => true)), true⟩
  else if user.role == "parent" then
    let relations := relationsOf s user.userId
    if relations.isEmpty then
      ⟨.ok [], false⟩
    else
      let childIds := relations.map (fun r => r.child_id)
      ⟨.ok (listWhere s (fun h => childIds.contains h.student_id)), true⟩
  else
    ⟨.ok (listWhere s (fun _ => true)), true⟩

/-- `POST /api/bind-child` (`server.js` lines 242-292), composed with the
honest store adapter; returns the response and the resulting store. -/
def bindChildHandler (s : Store) (user : JwtPayload) (childUsername : String) :
    Except ErrResp String × Store :=
  if user.role != "parent" then
    (.error ⟨403, "只有家長可以使用此功能"⟩, s)
  else if childUsername == "" then
    (.error ⟨400, "請輸入學生帳號"⟩, s)
  else
    let q := maybeSingle (s.users.filter (fun r => r.username == childUsername))
    match q.error with
    | some _ => (.error ⟨500, "綁定失敗，請稍後再試"⟩, s)
    | none =>
      match q.data with
      | none => (.error ⟨404, "找不到該帳號"⟩, s)
      | some child =>
        if child.role != "student" then
          (.error ⟨400, "該帳號不是學生身分，無法綁定"⟩, s)
        else
          match insertRelation s user.userId child.id with
          | (some e, s2) =>
            if e.code == "23505" then (.error ⟨409, "您已經綁定過此學生了"⟩, s2)
            else (.error ⟨500, "綁定失敗，請稍後再試"⟩, s2)
          | (none, s2) => (.ok ("成功綁定學生：" ++ childUsername), s2)

/-- Store states reachable from the empty store through the three
store-mutating operations. -/
inductive Reachable : Store → Prop where
  | init : Reachable emptyStore
  | register (env : Option String) (inp : RegisterInput) (now : Nat) {s : Store} :
      Reachable s → Reachable (registerHandler env s inp now).2
  | submit (user : JwtPayload) (body : HomeworkBody) (created : Nat) {s : Store} :
      Reachable s → Reachable (postHomeworkHandler s user body created).2
  | bind (user : JwtPayload) (childUsername : String) {s : Store} :
      Reachable s → Reachable (bindChildHandler s user childUsername).2

/-- Relationship invariant: every `parent_child` row points at a user whose
role is `student`. -/
def RelInvariant (s : Store) : Prop :=
  ∀ r ∈ s.parent_child, ∃ u ∈ s.users, u.id = r.child_id ∧ u.role = "student"

/-! ### Helper lemmas -/

theorem mem_listWhere (s : Store) (p : HomeworkRow → Bool) (h : HomeworkRow) :
    h ∈ listWhere s p ↔ h ∈ s.homeworks ∧ p h = true := by
  unfold listWhere
  rw [(List.perm_insertionSort createdDesc _).mem_iff, List.mem_filter]

theorem sorted_listWhere (s : Store) (p : HomeworkRow → Bool) :
    List.Sorted createdDesc (listWhere s p) :=
  List.sorted_insertionSort createdDesc _

theorem maybeSingle_data_some {α : Type} {rows : List α} {x : α}
    (h : (maybeSingle rows).data = some x) : rows = [x] := by
  match rows with
  | [] => simp [maybeSingle] at h
  | [y] => simp [maybeSingle] at h; simp [h]
  | a :: b :: t => simp [maybeSingle] at h

/-! ### Demonstration stores used by witnesses and counterexamples -/

def hwA : HomeworkRow := ⟨1, "alice", "t1", "c1", "pending", 10⟩

def hwB : HomeworkRow := ⟨2, "bob", "t2", "c2", "pending", 20⟩

def hwC : HomeworkRow := ⟨3, "carol", "t3", "c3", "pending", 30⟩

def demoHomeworkStore : Store := ⟨[], [hwA, hwB, hwC], [], 4⟩

def demoUserAlice : UserRow :=
  ⟨1, "alice", "alice@example.com", bcryptHash "pw1", "student", true⟩

def demoLoginStore : Store := ⟨[demoUserAlice], [], [], 2⟩

/-! ### Claim theorems -/

/-- C1: the spec requires the listing's role branch to fail closed with
`UnauthorizedRole` for a role outside `{submitter, reviewer, guardian}`.
The source's if / else-if chain has no final else, so a session whose role
is e.g. `"admin"` leaves the query unfiltered and receives the full,
unrestricted (reviewer-scope) record set — the listing succeeds with every
record in the store, identical to the teacher response, instead of
failing. -/
theorem unknown_role_receives_unrestricted_listing :
    getHomeworkHandler demoHomeworkStore ⟨7, "eve", "admin"⟩ =
      ⟨.ok [hwC, hwB, hwA], true⟩ ∧
    (getHomeworkHandler demoHomeworkStore ⟨7, "eve", "admin"⟩).response =
      (getHomeworkHandler demoHomeworkStore ⟨7, "eve", "teacher"⟩).response := by
  constructor <;> rfl

/-- C3: a login against a store in which the identifier matches no user and
a login with a wrong password for an existing user produce one and the same
`InvalidCredentials` response (status 401, identical message), so the
caller cannot tell the two failure causes apart. -/
theorem login_invalid_credentials_indistinguishable
    (env1 env2 : Option String) (s1 s2 : Store) (id1 pw1 id2 pw2 : String)
    (now1 now2 : Nat) (u : UserRow)
    (h1 : findUsersByIdentifier s1 id1 = [])
    (h2 : findUsersByIdentifier s2 id2 = [u])
    (h3 : bcryptCompare pw2 u.password_hash = false) :
    loginHandler env1 s1 id1 pw1 now1 = loginHandler env2 s2 id2 pw2 now2 ∧
    loginHandler env1 s1 id1 pw1 now1 = .error ⟨401, "帳號或密碼錯誤"⟩ := by
  unfold loginHandler
  rw [h1, h2]
  simp [maybeSingle, h3]

theorem login_invalid_credentials_indistinguishable_witness :
    loginHandler none emptyStore "ghost" "pw" 0 =
      loginHandler none demoLoginStore "alice" "wrong" 0 ∧
    loginHandler none emptyStore "ghost" "pw" 0 = .error ⟨401, "帳號或密碼錯誤"⟩ :=
  login_invalid_credentials_indistinguishable none none emptyStore demoLoginStore
    "ghost" "pw" "alice" "wrong" 0 0 demoUserAlice (by decide) (by decide) (by decide)

/-- C4 counterexample: a store failure in the registration duplicate-check
lookup is not surfaced as `StoreError`.  The source destructures only
`data` from the query result, so with a failing lookup (a connection
failure) and a succeeding insert, registration completes successfully —
a store failure treated as "no duplicate found" and then as a success. -/
theorem register_lookup_failure_treated_as_success :
    registerLogic none ⟨"alice", "a@x", "pw", ""⟩
      ⟨none, some ⟨"08006", "connection failure"⟩⟩
      ⟨some ⟨1, "alice", "a@x", bcryptHash "pw", "student", true⟩, none⟩ 0 =
      .ok ⟨"註冊成功", ⟨⟨1, "alice", "student"⟩, "default-secret-key", 604800⟩,
        ⟨1, "alice", "student"⟩⟩ := by
  decide

/-- C5 counterexample: the record-submission store-failure response embeds
the adapter's own message text (`'提交失敗: ' + error.message`), so the
user-visible message is not generic — two store failures differing only in
their internal message produce different responses. -/
theorem storeerror_message_leaks_adapter_detail :
    postHomeworkLogic ⟨1, "al", "student"⟩ ⟨"T", "C", 0, ""⟩
        (some ⟨"XX000", "connection reset by peer"⟩) =
      .error ⟨500, "提交失敗: connection reset by peer"⟩ ∧
    postHomeworkLogic ⟨1, "al", "student"⟩ ⟨"T", "C", 0, ""⟩
        (some ⟨"XX000", "connection reset by peer"⟩) ≠
      postHomeworkLogic ⟨1, "al", "student"⟩ ⟨"T", "C", 0, ""⟩
        (some ⟨"XX000", "server overload"⟩) := by
  constructor <;> decide

/-- C6: every successful record submission inserts exactly one record whose
owner id and display name come from the verified session context — not from
the client-supplied body fields — and whose status is `pending`; the user
and relationship tables are untouched. -/
theorem submit_success_owner_from_session (s : Store) (user : JwtPayload)
    (body : HomeworkBody) (created : Nat) (msg : String) (s2 : Store)
    (h : postHomeworkHandler s user body created = (.ok msg, s2)) :
    s2.users = s.users ∧ s2.parent_child = s.parent_child ∧
    s2.homeworks = s.homeworks ++
      [⟨user.userId, user.username, body.title, body.content, "pending", created⟩] := by
  unfold postHomeworkHandler at h
  split at h
  · simp at h
  · split at h
    · simp at h
    · rw [Prod.ext_iff] at h
      obtain ⟨-, h2⟩ := h
      subst h2
      exact ⟨rfl, rfl, rfl⟩

theorem submit_success_owner_from_session_witness :
    (⟨[], [⟨1, "al", "T", "C", "pending", 5⟩], [], 1⟩ : Store).homeworks =
      emptyStore.homeworks ++ [⟨1, "al", "T", "C", "pending", 5⟩] :=
  (submit_success_owner_from_session emptyStore ⟨1, "al", "student"⟩ ⟨"T", "C", 99, "mallory"⟩
    5 "功課提交成功！" ⟨[], [⟨1, "al", "T", "C", "pending", 5⟩], [], 1⟩ (by decide)).2.2

/-- C7: a record-submission request whose session role is not `student`
(in particular `teacher` or `parent`) fails with the `UnauthorizedRole`
response and leaves the store unchanged — the role check precedes the
insert. -/
theorem submit_nonstudent_unauthorized (s : Store) (user : JwtPayload)
    (body : HomeworkBody) (created : Nat) (h : user.role ≠ "student") :
    postHomeworkHandler s user body created = (.error ⟨403, "只有學生可以提交功課"⟩, s) := by
  simp [postHomeworkHandler, h]

theorem submit_nonstudent_unauthorized_witness :
    postHomeworkHandler demoHomeworkStore ⟨2, "tess", "teacher"⟩ ⟨"T", "C", 1, "x"⟩ 0 =
      (.error ⟨403, "只有學生可以提交功課"⟩, demoHomeworkStore) :=
  submit_nonstudent_unauthorized demoHomeworkStore ⟨2, "tess", "teacher"⟩ ⟨"T", "C", 1, "x"⟩ 0
    (by decide)

/-- C10: token issuance and verification share the single process-wide key
`JWT_SECRET env`; with no environment configuration that key is the literal
`default-secret-key`, so a token forged with that literal is accepted by
the auth gate, and every token issued by a successful login or registration
is accepted by the gate under the same configuration. -/
theorem jwt_default_secret_and_forgery :
    JWT_SECRET none = "default-secret-key" ∧
    (∀ (payload : JwtPayload) (now : Nat),
      authenticateToken none
        (some (jwtSign payload "default-secret-key" now JWT_EXPIRES_IN)) now = .ok payload) ∧
    (∀ (env : Option String) (s : Store) (u p : String) (now : Nat) (out : AuthSuccess),
      loginHandler env s u p now = .ok out →
      authenticateToken env (some out.token) now = .ok out.token.payload) ∧
    (∀ (env : Option String) (s : Store) (inp : RegisterInput) (now : Nat)
        (out : AuthSuccess) (s2 : Store),
      registerHandler env s inp now = (.ok out, s2) →
      authenticateToken env (some out.token) now = .ok out.token.payload) := by
  refine ⟨rfl, ?_, ?_, ?_⟩
  · intro payload now
    simp [authenticateToken, jwtVerify, jwtSign, JWT_SECRET, JWT_EXPIRES_IN]
  · intro env s u p now out h
    simp only [loginHandler] at h
    split at h
    · simp at h
    · split at h
      · simp at h
      · split at h
        · rw [Except.ok.injEq] at h
          subst h
          simp [authenticateToken, jwtVerify, jwtSign, JWT_EXPIRES_IN]
        · simp at h
  · intro env s inp now out s2 h
    unfold registerHandler at h
    split at h
    · simp at h
    · split at h
      · simp at h
      · split at h
        · simp at h
        · rw [Prod.ext_iff] at h
          obtain ⟨h1, -⟩ := h
          rw [Except.ok.injEq] at h1
          subst h1
          simp [authenticateToken, jwtVerify, jwtSign, JWT_EXPIRES_IN]

theorem jwt_default_secret_and_forgery_witness :
    authenticateToken none
      (some (jwtSign ⟨7, "eve", "teacher"⟩ "default-secret-key" 100 JWT_EXPIRES_IN)) 100 =
      .ok ⟨7, "eve", "teacher"⟩ ∧
    authenticateToken none
      (some ⟨⟨1, "alice", "student"⟩, "default-secret-key", 604800⟩) 0 =
      .ok ⟨1, "alice", "student"⟩ :=
  ⟨jwt_default_secret_and_forgery.2.1 ⟨7, "eve", "teacher"⟩ 100,
   jwt_default_secret_and_forgery.2.2.1 none demoLoginStore "alice" "pw1" 0
     ⟨"登入成功", ⟨⟨1, "alice", "student"⟩, "default-secret-key", 604800⟩,
       ⟨1, "alice", "student"⟩⟩ (by decide)⟩

/-- Store with two users both matching the identifier `"x"` (one by
username, one by email), so a `maybeSingle` lookup on `"x"` reports an
adapter error. -/
def demoAmbiguousStore : Store :=
  ⟨[⟨1, "x", "x1@example.com", bcryptHash "pw", "student", true⟩,
    ⟨2, "y", "x", bcryptHash "pw", "student", true⟩], [], [], 3⟩

/-- Store for the binding flow: student `bob` (id 1) already bound to
parent id 5. -/
def demoBindStore : Store :=
  ⟨[⟨1, "bob", "bob@example.com", bcryptHash "pw", "student", true⟩], [], [⟨5, 1⟩], 2⟩

/-- C5 (amended): store failures are surfaced with generic messages that
carry no adapter-internal detail in registration (insert failure) and
login (lookup failure), but the record-submission failure branch appends
the adapter error's own message text to its response. -/
theorem storeerror_messages_generic_except_submit
    (env : Option String) (inp : RegisterInput) (e1 : Option StoreErr)
    (nu : Option UserRow) (e2 : StoreErr) (now : Nat)
    (s : Store) (u p : String) (now2 : Nat) (er : StoreErr)
    (user : JwtPayload) (body : HomeworkBody) (e3 : StoreErr)
    (hru : inp.username ≠ "") (hre : inp.email ≠ "") (hrp : inp.password ≠ "")
    (hlog : (maybeSingle (findUsersByIdentifier s u)).error = some er)
    (hrole : user.role = "student")
    (hbt : body.title ≠ "") (hbc : body.content ≠ "") :
    registerLogic env inp ⟨none, e1⟩ ⟨nu, some e2⟩ now = .error ⟨500, "伺服器錯誤"⟩ ∧
    loginHandler env s u p now2 = .error ⟨500, "資料庫錯誤"⟩ ∧
    postHomeworkLogic user body (some e3) = .error ⟨500, "提交失敗: " ++ e3.message⟩ := by
  refine ⟨?_, ?_, ?_⟩
  · simp [registerLogic, hru, hre, hrp]
  · simp [loginHandler, hlog]
  · simp [postHomeworkLogic, hrole, hbt, hbc]

theorem storeerror_messages_generic_except_submit_witness :
    registerLogic none ⟨"a", "a@x", "pw", ""⟩ ⟨none, some ⟨"08006", "tcp reset"⟩⟩
        ⟨none, some ⟨"57P01", "admin shutdown"⟩⟩ 0 = .error ⟨500, "伺服器錯誤"⟩ ∧
    loginHandler none demoAmbiguousStore "x" "pw" 0 = .error ⟨500, "資料庫錯誤"⟩ ∧
    postHomeworkLogic ⟨1, "al", "student"⟩ ⟨"T", "C", 0, ""⟩ (some ⟨"57P01", "admin shutdown"⟩) =
      .error ⟨500, "提交失敗: admin shutdown"⟩ :=
  storeerror_messages_generic_except_submit none ⟨"a", "a@x", "pw", ""⟩
    (some ⟨"08006", "tcp reset"⟩) none ⟨"57P01", "admin shutdown"⟩ 0
    demoAmbiguousStore "x" "pw" 0 ⟨"PGRST116", "JSON object requested, multiple (or no) rows returned"⟩
    ⟨1, "al", "student"⟩ ⟨"T", "C", 0, ""⟩ ⟨"57P01", "admin shutdown"⟩
    (by decide) (by decide) (by decide) (by decide) (by decide) (by decide) (by decide)

/-- C4 (amended): store failures that the handlers actually inspect are
surfaced as errors — the login lookup failure as `StoreError`, the binding
insert's uniqueness violation (code 23505) reclassified to
`DuplicateRelationship` — but the registration duplicate-check lookup
discards the adapter error entirely: a failing lookup behaves exactly like
"no duplicate found", so registration can proceed to a successful
response after a store failure. -/
theorem store_failure_surfacing
    (env : Option String) (inp : RegisterInput) (e : StoreErr) (ins : QueryRes UserRow) (now : Nat)
    (s : Store) (u p : String) (now2 : Nat) (er : StoreErr)
    (s3 : Store) (guardian : JwtPayload) (cn : String) (child : UserRow)
    (hlog : (maybeSingle (findUsersByIdentifier s u)).error = some er)
    (hrole : guardian.role = "parent") (hcn : cn ≠ "")
    (hchild : (maybeSingle (s3.users.filter (fun r => r.username == cn))).data = some child)
    (hcr : child.role = "student")
    (hdup : (⟨guardian.userId, child.id⟩ : RelRow) ∈ s3.parent_child) :
    registerLogic env inp ⟨none, some e⟩ ins now = registerLogic env inp ⟨none, none⟩ ins now ∧
    loginHandler env s u p now2 = .error ⟨500, "資料庫錯誤"⟩ ∧
    bindChildHandler s3 guardian cn = (.error ⟨409, "您已經綁定過此學生了"⟩, s3) := by
  refine ⟨rfl, by simp [loginHandler, hlog], ?_⟩
  have hrows : s3.users.filter (fun r => r.username == cn) = [child] :=
    maybeSingle_data_some hchild
  have hins : insertRelation s3 guardian.userId child.id =
      (some ⟨"23505", "duplicate key value violates unique constraint"⟩, s3) := by
    unfold insertRelation
    rw [if_pos]
    rw [List.any_eq_true]
    exact ⟨⟨guardian.userId, child.id⟩, hdup, by simp⟩
  simp [bindChildHandler, hrole, hcn, hrows, maybeSingle, hcr, hins]

theorem store_failure_surfacing_witness :
    loginHandler none demoAmbiguousStore "x" "zz" 3 = .error ⟨500, "資料庫錯誤"⟩ ∧
    bindChildHandler demoBindStore ⟨5, "pat", "parent"⟩ "bob" =
      (.error ⟨409, "您已經綁定過此學生了"⟩, demoBindStore) :=
  ⟨(store_failure_surfacing none ⟨"a", "a@x", "pw", ""⟩ ⟨"08006", "tcp reset"⟩ ⟨none, none⟩ 0
      demoAmbiguousStore "x" "zz" 3 ⟨"PGRST116", "JSON object requested, multiple (or no) rows returned"⟩
      demoBindStore ⟨5, "pat", "parent"⟩ "bob" ⟨1, "bob", "bob@example.com", bcryptHash "pw", "student", true⟩
      (by decide) (by decide) (by decide) (by decide) (by decide) (by decide)).2.1,
   (store_failure_surfacing none ⟨"a", "a@x", "pw", ""⟩ ⟨"08006", "tcp reset"⟩ ⟨none, none⟩ 0
      demoAmbiguousStore "x" "zz" 3 ⟨"PGRST116", "JSON object requested, multiple (or no) rows returned"⟩
      demoBindStore ⟨5, "pat", "parent"⟩ "bob" ⟨1, "bob", "bob@example.com", bcryptHash "pw", "student", true⟩
      (by decide) (by decide) (by decide) (by decide) (by decide) (by decide)).2.2⟩

/-- Store with three homeworks by three students and a parent (id 7) bound
to students 1 and 2. -/
def demoParentStore : Store := ⟨[], [hwA, hwB, hwC], [⟨7, 1⟩, ⟨7, 2⟩], 4⟩

/-- C2: the listing is role-scoped and ordered by creation time descending:
a student receives exactly their own records; a teacher receives all
records; a parent with no bound children receives `[]` without the
homework query being executed; a parent with bound children receives
exactly the records owned by those children. -/
theorem listRecords_role_scoping (s : Store) (uid : Nat) (un : String) :
    (∃ L, getHomeworkHandler s ⟨uid, un, "student"⟩ = ⟨.ok L, true⟩ ∧
      List.Sorted createdDesc L ∧ ∀ h, h ∈ L ↔ h ∈ s.homeworks ∧ h.student_id = uid) ∧
    (∃ L, getHomeworkHandler s ⟨uid, un, "teacher"⟩ = ⟨.ok L, true⟩ ∧
      List.Sorted createdDesc L ∧ ∀ h, h ∈ L ↔ h ∈ s.homeworks) ∧
    (relationsOf s uid = [] → getHomeworkHandler s ⟨uid, un, "parent"⟩ = ⟨.ok [], false⟩) ∧
    (relationsOf s uid ≠ [] →
      ∃ L, getHomeworkHandler s ⟨uid, un, "parent"⟩ = ⟨.ok L, true⟩ ∧
        List.Sorted createdDesc L ∧
        ∀ h, h ∈ L ↔ h ∈ s.homeworks ∧
          h.student_id ∈ (relationsOf s uid).map (fun r => r.child_id)) := by
  refine ⟨?_, ?_, ?_, ?_⟩
  · refine ⟨listWhere s (fun h => h.student_id == uid), ?_, sorted_listWhere s _, ?_⟩
    · simp [getHomeworkHandler]
    · intro h
      rw [mem_listWhere]
      simp
  · refine ⟨listWhere s (fun _ => true), ?_, sorted_listWhere s _, ?_⟩
    · simp [getHomeworkHandler]
    · intro h
      rw [mem_listWhere]
      simp
  · intro hrel
    simp [getHomeworkHandler, hrel]
  · intro hrel
    refine ⟨listWhere s
        (fun h => ((relationsOf s uid).map (fun r => r.child_id)).contains h.student_id),
      ?_, sorted_listWhere s _, ?_⟩
    · simp [getHomeworkHandler, hrel]
    · intro h
      rw [mem_listWhere]
      simp [List.contains, List.elem_iff]

theorem listRecords_role_scoping_witness :
    getHomeworkHandler demoHomeworkStore ⟨9, "pat", "parent"⟩ = ⟨.ok [], false⟩ ∧
    ∃ L, getHomeworkHandler demoParentStore ⟨7, "pat", "parent"⟩ = ⟨.ok L, true⟩ ∧
      List.Sorted createdDesc L ∧
      ∀ h, h ∈ L ↔ h ∈ demoParentStore.homeworks ∧
        h.student_id ∈ (relationsOf demoParentStore 7).map (fun r => r.child_id) :=
  ⟨(listRecords_role_scoping demoHomeworkStore 9 "pat").2.2.1 (by decide),
   (listRecords_role_scoping demoParentStore 7 "pat").2.2.2 (by decide)⟩

/-- C8: registering with a username and email that occur nowhere in the
store succeeds, and a subsequent login with the same credentials succeeds
and yields a token whose decoded role (and identity id and username) match
what registration recorded; an omitted role (`""`) is recorded as
`student`. -/
theorem register_then_login (env : Option String) (s : Store) (inp : RegisterInput)
    (now now2 : Nat)
    (hu : inp.username ≠ "") (he : inp.email ≠ "") (hp : inp.password ≠ "")
    (fresh : ∀ u ∈ s.users, u.username ≠ inp.username ∧ u.email ≠ inp.username ∧
      u.username ≠ inp.email ∧ u.email ≠ inp.email) :
    ∃ out out2,
      (registerHandler env s inp now).1 = .ok out ∧
      loginHandler env (registerHandler env s inp now).2 inp.username inp.password now2 =
        .ok out2 ∧
      out2.user.id = out.user.id ∧ out2.user.username = out.user.username ∧
      out2.token.payload.role = out.user.role ∧
      out.user.role = (if inp.role == "" then "student" else inp.role) := by
  have hfilter : findUsersByUsernameOrEmail s inp.username inp.email = [] := by
    unfold findUsersByUsernameOrEmail
    rw [List.filter_eq_nil_iff]
    intro u hu2
    obtain ⟨h1, h2, h3, h4⟩ := fresh u hu2
    simp [h1, h4]
  have hany : s.users.any
      (fun r => r.username == (newUserRow s inp).username ||
        r.email == (newUserRow s inp).email) = false := by
    rw [List.any_eq_false]
    intro u hu2
    obtain ⟨h1, h2, h3, h4⟩ := fresh u hu2
    simp [newUserRow, h1, h4]
  have hins : insertUser s (newUserRow s inp) =
      (none, ⟨s.users ++ [newUserRow s inp], s.homeworks, s.parent_child, s.nextId + 1⟩) := by
    unfold insertUser
    rw [hany]
    simp
  have hreg : registerHandler env s inp now =
      (.ok ⟨"註冊成功",
        jwtSign ⟨s.nextId, inp.username, if inp.role == "" then "student" else inp.role⟩
          (JWT_SECRET env) now JWT_EXPIRES_IN,
        ⟨s.nextId, inp.username, if inp.role == "" then "student" else inp.role⟩⟩,
       ⟨s.users ++ [newUserRow s inp], s.homeworks, s.parent_child, s.nextId + 1⟩) := by
    simp only [registerHandler, hfilter, maybeSingle, hins]
    simp [hu, he, hp, newUserRow]
  have hfind2 : findUsersByIdentifier
      (⟨s.users ++ [newUserRow s inp], s.homeworks, s.parent_child, s.nextId + 1⟩ : Store)
      inp.username = [newUserRow s inp] := by
    unfold findUsersByIdentifier
    rw [show (⟨s.users ++ [newUserRow s inp], s.homeworks, s.parent_child,
      s.nextId + 1⟩ : Store).users = s.users ++ [newUserRow s inp] from rfl]
    rw [List.filter_append]
    have hnil : s.users.filter
        (fun r => r.username == inp.username || r.email == inp.username) = [] := by
      rw [List.filter_eq_nil_iff]
      intro u hu2
      obtain ⟨h1, h2, h3, h4⟩ := fresh u hu2
      simp [h1, h2]
    rw [hnil]
    simp [newUserRow]
  have hlogin : loginHandler env
      (⟨s.users ++ [newUserRow s inp], s.homeworks, s.parent_child, s.nextId + 1⟩ : Store)
      inp.username inp.password now2 =
      .ok ⟨"登入成功",
        jwtSign ⟨s.nextId, inp.username, if inp.role == "" then "student" else inp.role⟩
          (JWT_SECRET env) now2 JWT_EXPIRES_IN,
        ⟨s.nextId, inp.username, if inp.role == "" then "student" else inp.role⟩⟩ := by
    simp only [loginHandler, hfind2, maybeSingle]
    simp [bcryptCompare, newUserRow]
  refine ⟨⟨"註冊成功",
      jwtSign ⟨s.nextId, inp.username, if inp.role == "" then "student" else inp.role⟩
        (JWT_SECRET env) now JWT_EXPIRES_IN,
      ⟨s.nextId, inp.username, if inp.role == "" then "student" else inp.role⟩⟩,
    ⟨"登入成功",
      jwtSign ⟨s.nextId, inp.username, if inp.role == "" then "student" else inp.role⟩
        (JWT_SECRET env) now2 JWT_EXPIRES_IN,
      ⟨s.nextId, inp.username, if inp.role == "" then "student" else inp.role⟩⟩,
    ?_, ?_, rfl, rfl, rfl, rfl⟩
  · rw [hreg]
  · rw [hreg]
    exact hlogin

theorem register_then_login_witness :
    ∃ out out2,
      (registerHandler none emptyStore ⟨"alice", "alice@example.com", "pw1", "teacher"⟩ 0).1 =
        .ok out ∧
      loginHandler none
        (registerHandler none emptyStore ⟨"alice", "alice@example.com", "pw1", "teacher"⟩ 0).2
        "alice" "pw1" 5 = .ok out2 ∧
      out2.user.id = out.user.id ∧ out2.user.username = out.user.username ∧
      out2.token.payload.role = out.user.role ∧
      out.user.role = "teacher" :=
  register_then_login none emptyStore ⟨"alice", "alice@example.com", "pw1", "teacher"⟩ 0 5
    (by decide) (by decide) (by decide) (by decide)

theorem postHomeworkHandler_store_effect (s : Store) (user : JwtPayload)
    (body : HomeworkBody) (created : Nat) :
    (postHomeworkHandler s user body created).2.users = s.users ∧
    (postHomeworkHandler s user body created).2.parent_child = s.parent_child := by
  unfold postHomeworkHandler
  split
  · exact ⟨rfl, rfl⟩
  · split
    · exact ⟨rfl, rfl⟩
    · exact ⟨rfl, rfl⟩

theorem registerHandler_store_effect (env : Option String) (s : Store)
    (inp : RegisterInput) (now : Nat) :
    (registerHandler env s inp now).2.parent_child = s.parent_child ∧
    ∀ u ∈ s.users, u ∈ (registerHandler env s inp now).2.users := by
  unfold registerHandler
  split
  · exact ⟨rfl, fun u hu => hu⟩
  · split
    · exact ⟨rfl, fun u hu => hu⟩
    · rcases hins : insertUser s (newUserRow s inp) with ⟨oe, s2⟩
      have hs2 : s2.parent_child = s.parent_child ∧ ∀ u ∈ s.users, u ∈ s2.users := by
        unfold insertUser at hins
        split at hins
        · injection hins with h1 h2
          subst h2
          exact ⟨rfl, fun u hu => hu⟩
        · injection hins with h1 h2
          subst h2
          exact ⟨rfl, fun u hu => List.mem_append_left _ hu⟩
      cases oe with
      | some e => exact hs2
      | none => exact hs2

theorem bindChildHandler_store_effect (s : Store) (user : JwtPayload) (cn : String) :
    (bindChildHandler s user cn).2 = s ∨
    ∃ child ∈ s.users, child.role = "student" ∧
      (bindChildHandler s user cn).2 =
        ⟨s.users, s.homeworks, s.parent_child ++ [⟨user.userId, child.id⟩], s.nextId⟩ := by
  simp only [bindChildHandler]
  split
  · exact .inl rfl
  split
  · exact .inl rfl
  rcases hq : maybeSingle (s.users.filter (fun r => r.username == cn)) with ⟨d, e⟩
  rw [hq]
  cases e with
  | some er => exact .inl rfl
  | none =>
    cases d with
    | none => exact .inl rfl
    | some child =>
      have hrows : s.users.filter (fun r => r.username == cn) = [child] :=
        maybeSingle_data_some (by rw [hq])
      have hcm : child ∈ s.users := by
        have : child ∈ s.users.filter (fun r => r.username == cn) := by
          rw [hrows]; exact List.mem_singleton_self child
        exact (List.mem_filter.1 this).1
      dsimp only
      by_cases hrole : (child.role != "student") = true
      · rw [if_pos hrole]
        exact .inl rfl
      · rw [if_neg hrole]
        have hcr : child.role = "student" := by
          simpa using hrole
        rcases hins : insertRelation s user.userId child.id with ⟨oe, s2⟩
        have hs2 : s2 = s ∨
            s2 = ⟨s.users, s.homeworks, s.parent_child ++ [⟨user.userId, child.id⟩], s.nextId⟩ := by
          unfold insertRelation at hins
          split at hins
          · injection hins with h1 h2
            exact .inl h2.symm
          · injection hins with h1 h2
            exact .inr h2.symm
        cases oe with
        | some er =>
          dsimp only
          rcases hs2 with h | h
          · split
            · exact .inl h
            · exact .inl h
          · split
            · exact .inr ⟨child, hcm, hcr, h⟩
            · exact .inr ⟨child, hcm, hcr, h⟩
        | none =>
          dsimp only
          rcases hs2 with h | h
          · exact .inl h
          · exact .inr ⟨child, hcm, hcr, h⟩

/-- C9: every relationship row in every store state reachable from the
empty store through the three mutating operations points at a user whose
role is `student`; and when the binding flow's target lookup returns an
identity whose role is not `student`, the call fails with
`InvalidTargetRole` and the store — in particular the `parent_child`
table — is unchanged. -/
theorem relationship_targets_are_students :
    (∀ s, Reachable s → RelInvariant s) ∧
    (∀ (s : Store) (user : JwtPayload) (cn : String) (child : UserRow),
      user.role = "parent" → cn ≠ "" →
      (maybeSingle (s.users.filter (fun r => r.username == cn))).data = some child →
      child.role ≠ "student" →
      bindChildHandler s user cn = (.error ⟨400, "該帳號不是學生身分，無法綁定"⟩, s)) := by
  constructor
  · intro s hs
    induction hs with
    | init =>
      intro r hr
      exact absurd hr (List.not_mem_nil r)
    | register env inp now h ih =>
      intro r hr
      rw [(registerHandler_store_effect env _ inp now).1] at hr
      obtain ⟨u, hu, h1, h2⟩ := ih r hr
      exact ⟨u, (registerHandler_store_effect env _ inp now).2 u hu, h1, h2⟩
    | submit user body created h ih =>
      intro r hr
      rw [(postHomeworkHandler_store_effect _ user body created).2] at hr
      obtain ⟨u, hu, h1, h2⟩ := ih r hr
      refine ⟨u, ?_, h1, h2⟩
      rw [(postHomeworkHandler_store_effect _ user body created).1]
      exact hu
    | bind user cn h ih =>
      rcases bindChildHandler_store_effect _ user cn with heq | ⟨child, hcm, hcr, heq⟩
      · intro r hr
        rw [heq] at hr
        obtain ⟨u, hu, h1, h2⟩ := ih r hr
        refine ⟨u, ?_, h1, h2⟩
        rw [heq]
        exact hu
      · intro r hr
        rw [heq] at hr
        rcases List.mem_append.1 hr with hr2 | hr2
        · obtain ⟨u, hu, h1, h2⟩ := ih r hr2
          refine ⟨u, ?_, h1, h2⟩
          rw [heq]
          exact hu
        · have hr3 : r = ⟨user.userId, child.id⟩ := List.mem_singleton.1 hr2
          refine ⟨child, ?_, ?_, hcr⟩
          · rw [heq]
            exact hcm
          · rw [hr3]
  · intro s user cn child hrole hcn hdata hcr
    have hrows : s.users.filter (fun r => r.username == cn) = [child] :=
      maybeSingle_data_some hdata
    simp [bindChildHandler, hrole, hcn, hrows, maybeSingle, hcr]

def demoTeacherStore : Store :=
  ⟨[⟨2, "tess", "tess@example.com", bcryptHash "pw", "teacher", true⟩], [], [], 3⟩

theorem relationship_targets_are_students_witness :
    RelInvariant emptyStore ∧
    bindChildHandler demoTeacherStore ⟨5, "pat", "parent"⟩ "tess" =
      (.error ⟨400, "該帳號不是學生身分，無法綁定"⟩, demoTeacherStore) :=
  ⟨relationship_targets_are_students.1 emptyStore Reachable.init,
   relationship_targets_are_students.2 demoTeacherStore ⟨5, "pat", "parent"⟩ "tess"
     ⟨2, "tess", "tess@example.com", bcryptHash "pw", "teacher", true⟩
     rfl (by decide) (by decide) (by decide)⟩

end FM2
